import Mathlib

/-!
Verification development for the nostreaming chat-completion gateway
(routing + retry orchestration + fake-stream emission core).

The definitions below are a shallow embedding of the TypeScript source:
  * src/schemas/openai.ts        — canonical request/response shapes
  * src/handlers/completion.ts   — autoRetryCompletion, createFakeStream
  * src/providers/router.ts      — ProviderRouterImpl.completion / models
  * src/providers/manager.ts     — ProviderManagerImpl (alias table lifecycle)
  * src/providers/registry.ts    — ProviderRegistryImpl.createClient
  * src/utils (FilterUtil)       — whitelist / blacklist model filtering

JavaScript `Map`s are embedded as association lists with `Map.get`,
`Map.set` (update in place, else append) and `Map.delete` semantics.
Async functions are embedded as pure functions; where a claim depends on
the position of an `await` (a suspension point), the function is split
into the phase before and the phase after the suspension, and the
pre-suspension state is the state a concurrent reader can observe.
-/

namespace NoStreaming

/-! ## Data model (src/schemas/openai.ts) -/

/-- ChatMessageSchema: role enum (required by the schema; the emitter still
guards on its JS truthiness, i.e. non-emptiness) and nullable content. -/
structure ChatMessage where
  role : String
  content : Option String
  deriving Repr, DecidableEq

/-- ChatChoiceSchema: index, message, nullable finish_reason. -/
structure ChatChoice where
  index : Nat
  message : ChatMessage
  finish_reason : Option String
  deriving Repr, DecidableEq

/-- UsageSchema: token counts. -/
structure Usage where
  prompt_tokens : Nat
  completion_tokens : Nat
  total_tokens : Nat
  deriving Repr, DecidableEq

/-- ChatCompletionsResponseSchema (the `object` field is the constant
"chat.completion" and is omitted). -/
structure ChatCompletionsResponse where
  id : String
  created : Nat
  model : String
  choices : List ChatChoice
  usage : Usage
  deriving Repr, DecidableEq

/-- ChatCompletionsRequestSchema. Only `model`, `messages` and `stream` are
inspected by the core; the remaining optional sampling/tool fields are
copied verbatim by the object spread in the router and are embedded as the
opaque `rest` component. -/
structure ChatCompletionsRequest where
  model : String
  messages : List ChatMessage
  stream : Option Bool
  rest : List (String × String)
  deriving Repr, DecidableEq

/-- ModelInfo (providers/types.ts): upstream-reported model description.
Extra provider-specific fields are carried opaquely in `extra`. -/
structure ModelInfo where
  id : String
  created : Option Nat
  owned_by : Option String
  extra : List (String × String)
  deriving Repr, DecidableEq

/-- Errors produced by the core. The source uses plain `Error` values; each
constructor here corresponds to one of the distinct message shapes (see
`errMessage` for the exact strings). -/
inductive Err where
  | aliasNotFound (aliasName : String)
  | clientNotFound (providerName : String)
  | providerNotFound (name : String)
  | upstream (message : String)
  | createFailed (name : String) (message : String)
  | refreshFailed
  | completionFailed
  | maxRetriesExceeded
  deriving Repr, DecidableEq

/-- The message string carried by each error, as written in the source. -/
def errMessage : Err → String
  | Err.aliasNotFound a =>
      "ModelAlias \"" ++ a ++ "\" not found or provider not available"
  | Err.clientNotFound p => "Provider \"" ++ p ++ "\" not found"
  | Err.providerNotFound n => "Provider \"" ++ n ++ "\" not found"
  | Err.upstream m => m
  | Err.createFailed n m =>
      "Failed to initialize provider \"" ++ n ++ "\": " ++ m
  | Err.refreshFailed => "Failed to refresh models"
  | Err.completionFailed => "Completion failed"
  | Err.maxRetriesExceeded => "Failed after max retries"

/-! ## Completion orchestrator (src/handlers/completion.ts, autoRetryCompletion)

`ProviderRouter.completion` is treated as an oracle `comp` mapping the
attempt index (the loop counter `i`, starting at 1) to the `Result` of that
attempt. -/

/-- An attempt is retried when it errored or when the response is
error-free but has `usage.completion_tokens === 0` (empty generation). -/
def attemptFails : Except Err ChatCompletionsResponse → Bool
  | Except.error _ => true
  | Except.ok r => decide (r.usage.completion_tokens = 0)

/-- The retry loop `for (let i = 1; i <= maxRetries; i++)`, with the number
of completed `ProviderRouter.completion` invocations tracked in the second
component. `i` is the current attempt index, the second argument the number
of remaining iterations. -/
def autoRetryAux (comp : Nat → Except Err ChatCompletionsResponse) :
    Nat → Nat → Except Err ChatCompletionsResponse × Nat
  | _, 0 => (Except.error Err.maxRetriesExceeded, 0)
  | i, n + 1 =>
    match comp i with
    | Except.error _ =>
        let p := autoRetryAux comp (i + 1) n
        (p.1, p.2 + 1)
    | Except.ok response =>
        if response.usage.completion_tokens = 0 then
          let p := autoRetryAux comp (i + 1) n
          (p.1, p.2 + 1)
        else (Except.ok response, 1)

/-- autoRetryCompletion: the returned `Result`. -/
def autoRetryCompletion (comp : Nat → Except Err ChatCompletionsResponse)
    (maxRetries : Nat) : Except Err ChatCompletionsResponse :=
  (autoRetryAux comp 1 maxRetries).1

/-- Number of `ProviderRouter.completion` invocations performed by
`autoRetryCompletion`. -/
def autoRetryCallCount (comp : Nat → Except Err ChatCompletionsResponse)
    (maxRetries : Nat) : Nat :=
  (autoRetryAux comp 1 maxRetries).2

/-- A syntactically valid but empty (zero completion tokens) response, used
as the always-empty provider client in witnesses. -/
def emptyResp : ChatCompletionsResponse :=
  { id := "chatcmpl-0", created := 0, model := "m",
    choices := [], usage := { prompt_tokens := 1, completion_tokens := 0, total_tokens := 1 } }

/-! ## JavaScript Map embedding

Association lists with unique keys maintained by construction. `mapLookup`
is `Map.get`, `mapSet` is `Map.set` (replace in place when the key is
present, else append — JS Maps preserve insertion order), `mapDelete` is
`Map.delete`, `mapCopy` is the `new Map(entries)` copy constructor used by
`getModelAliasesMapping`. -/

/-- Map.get: first entry with the given key. -/
def mapLookup {α : Type} (m : List (String × α)) (key : String) : Option α :=
  match m with
  | [] => none
  | (k, v) :: rest => if k = key then some v else mapLookup rest key

/-- Map.set: update the entry in place when the key is present, else append. -/
def mapSet {α : Type} (m : List (String × α)) (key : String) (v : α) :
    List (String × α) :=
  match m with
  | [] => [(key, v)]
  | (k, w) :: rest =>
    if k = key then (key, v) :: rest else (k, w) :: mapSet rest key v

/-- Map.delete: drop the entry with the given key. -/
def mapDelete {α : Type} (m : List (String × α)) (key : String) :
    List (String × α) :=
  m.filter (fun kv => decide (kv.1 ≠ key))

/-- new Map(entries): rebuild the map from its entries in iteration order. -/
def mapCopy (m : List (String × String)) : List (String × String) :=
  m.foldl (fun acc kv => mapSet acc kv.1 kv.2) []

/-! ## Filters (src/utils FilterUtil, src/config/schema.ts) -/

/-- ProviderFilterSchema.mode. -/
inductive FilterMode where
  | whitelist
  | blacklist
  deriving Repr, DecidableEq

/-- ProviderFilterSchema: mode plus the configured model-id set (the source
builds a `Set<string>` from this array; only membership is used). -/
structure ProviderFilter where
  mode : FilterMode
  models : List String
  deriving Repr, DecidableEq

namespace FilterUtil

/-- FilterUtil.whitelist: intersection with the configured set, upstream
order preserved. -/
def whitelist (models : List ModelInfo) (filterModelIds : List String) :
    List ModelInfo :=
  models.filter (fun m => filterModelIds.contains m.id)

/-- FilterUtil.blacklist: upstream list minus the configured set. -/
def blacklist (models : List ModelInfo) (filterModelIds : List String) :
    List ModelInfo :=
  models.filter (fun m => !(filterModelIds.contains m.id))

/-- FilterUtil.apply: dispatch on the mode. -/
def apply (models : List ModelInfo) (filterModelIds : List String)
    (mode : FilterMode) : List ModelInfo :=
  match mode with
  | FilterMode.whitelist => whitelist models filterModelIds
  | FilterMode.blacklist => blacklist models filterModelIds

end FilterUtil

/-- ProviderManagerImpl.applyFilter: no filter configured means all models
pass; otherwise dispatch to FilterUtil. The provider's filter configuration
is passed in directly (the source reads it from the global config). -/
def applyFilter (filterCfg : Option ProviderFilter) (models : List ModelInfo) :
    List ModelInfo :=
  match filterCfg with
  | none => models
  | some f => FilterUtil.apply models f.models f.mode

/-! ## Provider clients, manager and router
(src/providers/types.ts, manager.ts, router.ts)

A ProviderClient's async operations are embedded as oracles: `create`,
`models` and `refreshModels` are the `Result`s those calls produce, and
`completion` maps the forwarded request to the upstream `Result`. -/

/-- ProviderClient interface (providers/types.ts). -/
structure ProviderClient where
  name : String
  create : Except Err Unit
  models : Except Err (List ModelInfo)
  refreshModels : Except Err (List ModelInfo)
  completion : ChatCompletionsRequest → Except Err ChatCompletionsResponse

/-- ProviderManagerImpl's mutable fields: the client map and the
ModelAlias → provider-name mapping. -/
structure ManagerState where
  clients : List (String × ProviderClient)
  modelAliasesMapping : List (String × String)

/-- ProviderManagerImpl.getClient. -/
def getClient (st : ManagerState) (name : String) : Option ProviderClient :=
  mapLookup st.clients name

/-- ProviderManagerImpl.getModelAliasesMapping: returns
`new Map(this.modelAliasesMapping)` — a fresh copy of the table. -/
def getModelAliasesMapping (st : ManagerState) : List (String × String) :=
  mapCopy st.modelAliasesMapping

/-- ProviderManagerImpl.registerModels: insert `"<name>/<model.id>"`
aliases for every (already filtered) model. -/
def registerModels (st : ManagerState) (providerName : String)
    (models : List ModelInfo) : ManagerState :=
  { st with
    modelAliasesMapping :=
      models.foldl
        (fun m model => mapSet m (providerName ++ "/" ++ model.id) providerName)
        st.modelAliasesMapping }

/-- ProviderManagerImpl.removeModels: collect the aliases mapped to the
provider, then delete each of them. -/
def removeModels (st : ManagerState) (providerName : String) : ManagerState :=
  let aliasesToRemove :=
    (st.modelAliasesMapping.filter (fun kv => decide (kv.2 = providerName))).map Prod.fst
  { st with
    modelAliasesMapping := aliasesToRemove.foldl mapDelete st.modelAliasesMapping }

/-- ProviderManagerImpl.refreshModels, phase before the upstream suspension
point: resolve the client and remove the provider's aliases. The returned
state is what the alias table holds while `client.refreshModels()` is being
awaited. `none` encodes the ProviderNotFound early return. -/
def refreshModelsPre (st : ManagerState) (name : String) :
    Option (ProviderClient × ManagerState) :=
  match getClient st name with
  | none => none
  | some client => some (client, removeModels st name)

/-- ProviderManagerImpl.refreshModels, continuation after the awaited
upstream fetch resolves with `fetched`. -/
def refreshModelsPost (filterCfg : Option ProviderFilter) (st1 : ManagerState)
    (name : String) (fetched : Except Err (List ModelInfo)) :
    Except Err (List ModelInfo) × ManagerState :=
  match fetched with
  | Except.error e => (Except.error e, st1)
  | Except.ok models =>
    let originalCount := models.length
    let filteredModels := applyFilter filterCfg models
    let finalResult : Except Err (List ModelInfo) :=
      if filteredModels.length ≠ originalCount then Except.ok filteredModels
      else Except.ok models
    let st2 := registerModels st1 name filteredModels
    (finalResult, st2)

/-- ProviderManagerImpl.refreshModels: both phases composed. -/
def refreshModels (filterCfg : Option ProviderFilter) (st : ManagerState)
    (name : String) : Except Err (List ModelInfo) × ManagerState :=
  match refreshModelsPre st name with
  | none => (Except.error (Err.providerNotFound name), st)
  | some (client, st1) => refreshModelsPost filterCfg st1 name client.refreshModels

/-- ProviderManagerImpl.destroyProvider: remove the provider's aliases and
its client; ProviderNotFound when it was never registered. -/
def destroyProvider (st : ManagerState) (name : String) :
    Except Err Unit × ManagerState :=
  match getClient st name with
  | none => (Except.error (Err.providerNotFound name), st)
  | some _ =>
    let st1 := removeModels st name
    (Except.ok (), { st1 with clients := mapDelete st1.clients name })

/-- The alias trimming in ProviderRouterImpl.completion: strip the
`"<providerName>/"` tag when the alias starts with it, else forward the
full alias unchanged. -/
def trimAlias (providerName : String) (aliasName : String) : String :=
  let tag := providerName ++ "/"
  if aliasName.startsWith tag then aliasName.drop tag.length else aliasName

/-- The providerRequest built by ProviderRouterImpl.completion: the object
spread copies every field, then overrides `model` with the trimmed alias
and forces `stream` to false. -/
def forwardedRequest (providerName : String)
    (request : ChatCompletionsRequest) : ChatCompletionsRequest :=
  { request with
    model := trimAlias providerName request.model,
    stream := some false }

/-- ProviderRouterImpl.completion, instrumented with the list of client
invocations (provider name and the forwarded request) it performs. -/
def routerCompletionTr (st : ManagerState) (request : ChatCompletionsRequest) :
    Except Err ChatCompletionsResponse × List (String × ChatCompletionsRequest) :=
  let modelAlias := request.model
  let modelAliasesMapping := getModelAliasesMapping st
  match mapLookup modelAliasesMapping modelAlias with
  | none => (Except.error (Err.aliasNotFound modelAlias), [])
  | some providerName =>
    match getClient st providerName with
    | none => (Except.error (Err.clientNotFound providerName), [])
    | some client =>
      let providerRequest := forwardedRequest providerName request
      match client.completion providerRequest with
      | Except.error e => (Except.error e, [(providerName, providerRequest)])
      | Except.ok response => (Except.ok response, [(providerName, providerRequest)])

/-- ProviderRouterImpl.completion: just the returned `Result`. -/
def routerCompletion (st : ManagerState) (request : ChatCompletionsRequest) :
    Except Err ChatCompletionsResponse :=
  (routerCompletionTr st request).1

/-! ## Provider registry and initialization
(src/providers/registry.ts, manager.ts)

`createClient` throws on an unknown provider type (its doc comment says
`@throws`), so its embedding returns `Except Thrown`; a `Thrown` value is a
JavaScript exception propagating out of the call, as opposed to an `Err`
carried inside a returned `Result`. -/

/-- A JavaScript exception escaping a call (not a returned `Result`). -/
inductive Thrown where
  | thrown (message : String)
  deriving Repr, DecidableEq

/-- ProviderConfigSchema (src/config/schema.ts); the passthrough
provider-specific fields are irrelevant to the core and omitted. -/
structure ProviderConfig where
  enabled : Bool
  type : String
  endpoint : String
  api_key : String
  filter : Option ProviderFilter
  deriving Repr, DecidableEq

/-- Object.values(ProviderType): the recognized enum values. -/
def providerTypeValues : List String := ["openai"]

/-- ProviderRegistryImpl's factory table. -/
structure Registry where
  factories : List (String × (String → ProviderConfig → ProviderClient))

/-- ProviderRegistryImpl.createClient: look up the factory for
`config.type`; throw when absent, throw when the type is not a recognized
enum value, else construct the client. -/
def createClient (reg : Registry) (name : String) (config : ProviderConfig) :
    Except Thrown ProviderClient :=
  match mapLookup reg.factories config.type with
  | none =>
    Except.error (Thrown.thrown
      ("Provider type \"" ++ config.type ++ "\" is not registered. Available types: "
        ++ String.intercalate ", " (reg.factories.map Prod.fst)))
  | some factory =>
    if providerTypeValues.contains config.type then
      Except.ok (factory name config)
    else Except.error (Thrown.thrown ("Invalid provider type: " ++ config.type))

/-- ProviderManagerImpl.initializeProviders. `filterCfg` supplies each
provider's filter configuration (read from the global config in the
source). The outer `Except Thrown` is exception propagation: the source
calls `ProviderRegistry.createClient` without a try/catch, so a thrown
exception escapes `initializeProviders` instead of being returned as a
`Result`. Disabled providers are skipped; a provider whose `create()`
fails aborts the run fail-fast with a returned error `Result`; a provider
whose model fetch fails after a successful `create()` is registered with
no aliases. -/
def initializeProviders (reg : Registry)
    (filterCfg : String → Option ProviderFilter) :
    List (String × ProviderConfig) → ManagerState →
    Except Thrown (Except Err Unit × ManagerState)
  | [], st => Except.ok (Except.ok (), st)
  | (name, providerConfig) :: rest, st =>
    if providerConfig.enabled = false then
      initializeProviders reg filterCfg rest st
    else
      match createClient reg name providerConfig with
      | Except.error t => Except.error t
      | Except.ok client =>
        match client.create with
        | Except.error e =>
          Except.ok (Except.error (Err.createFailed name (errMessage e)), st)
        | Except.ok _ =>
          let st1 :=
            match client.models with
            | Except.ok models =>
                registerModels st name (applyFilter (filterCfg name) models)
            | Except.error _ => st
          let st2 := { st1 with clients := mapSet st1.clients name client }
          initializeProviders reg filterCfg rest st2

/-! ## Fake-stream emitter (src/handlers/completion.ts, createFakeStream)

The emitter's observable output is modelled as a list of events: emitted
SSE frames, keep-alive timer cancellation (`clearInterval`) and channel
close (`controller.close()`). The session's concurrent activities — the
timer callback `sendEmptyData`, the continuation after the awaited
orchestrator call, and the stream's `cancel()` callback — are the three
step inputs of a state machine over the session flags. -/

/-- The chunk shapes the emitter produces. Each constructor records exactly
the data that the corresponding `JSON.stringify` call in the source
serializes; `choices` entries pair the choice index with the delta payload
of that chunk. -/
inductive Frame where
  | keepAlive (id : String) (created : Nat) (model : String)
  | roleDelta (id : String) (created : Nat) (model : String)
      (index : Nat) (role : String)
  | contentDelta (id : String) (created : Nat) (model : String)
      (choices : List (Nat × Option String))
  | finishDelta (id : String) (created : Nat) (model : String)
      (choices : List (Nat × Option String))
  | doneMarker
  | errorFrame (message : String)
  deriving Repr, DecidableEq

/-- Observable emitter actions. -/
inductive Event where
  | frame (f : Frame)
  | timerCancel
  | closeChannel
  deriving Repr, DecidableEq

/-- Whether an event is an emitted frame. -/
def isFrameEvent : Event → Bool
  | Event.frame _ => true
  | _ => false

/-- JSON string escaping for the characters JSON.stringify always escapes
in the payloads at hand. -/
def jsonEscapeChar (c : Char) : String :=
  if c = '"' then "\\\""
  else if c = '\\' then "\\\\"
  else if c = '\n' then "\\n"
  else if c = '\r' then "\\r"
  else if c = '\t' then "\\t"
  else String.singleton c

/-- A JSON string literal. -/
def jsonStr (s : String) : String :=
  "\"" ++ String.join (s.data.map jsonEscapeChar) ++ "\""

/-- A JSON string-or-null. -/
def jsonOptStr : Option String → String
  | none => "null"
  | some s => jsonStr s

/-- One element of the content chunk's `choices` array. -/
def jsonContentChoice (c : Nat × Option String) : String :=
  "\x7b\"index\":" ++ toString c.1 ++ ",\"delta\":\x7b\"content\":"
    ++ jsonOptStr c.2 ++ "\x7d,\"finish_reason\":null\x7d"

/-- One element of the finish chunk's `choices` array. -/
def jsonFinishChoice (c : Nat × Option String) : String :=
  "\x7b\"index\":" ++ toString c.1 ++ ",\"delta\":\x7b\x7d,\"finish_reason\":"
    ++ jsonOptStr c.2 ++ "\x7d"

/-- The chunk header shared by every chat.completion.chunk payload, with
the keys in the order the source writes them. -/
def jsonChunkHeader (id : String) (created : Nat) (model : String) : String :=
  "\"id\":" ++ jsonStr id ++ ",\"object\":\"chat.completion.chunk\",\"created\":"
    ++ toString created ++ ",\"model\":" ++ jsonStr model

/-- The `<json>` body of each frame (`[DONE]` for the terminal marker). -/
def frameJson : Frame → String
  | Frame.keepAlive id created model =>
    "\x7b" ++ jsonChunkHeader id created model
      ++ ",\"choices\":[\x7b\"index\":0,\"delta\":\x7b\"content\":\"\"\x7d,\"finish_reason\":null\x7d]\x7d"
  | Frame.roleDelta id created model index role =>
    "\x7b" ++ jsonChunkHeader id created model
      ++ ",\"choices\":[\x7b\"index\":" ++ toString index
      ++ ",\"delta\":\x7b\"role\":" ++ jsonStr role
      ++ "\x7d,\"finish_reason\":null\x7d]\x7d"
  | Frame.contentDelta id created model choices =>
    "\x7b" ++ jsonChunkHeader id created model
      ++ ",\"choices\":[" ++ String.intercalate "," (choices.map jsonContentChoice) ++ "]\x7d"
  | Frame.finishDelta id created model choices =>
    "\x7b" ++ jsonChunkHeader id created model
      ++ ",\"choices\":[" ++ String.intercalate "," (choices.map jsonFinishChoice) ++ "]\x7d"
  | Frame.doneMarker => "[DONE]"
  | Frame.errorFrame message =>
    "\x7b\"error\":\x7b\"message\":" ++ jsonStr message
      ++ ",\"type\":\"completion_error\"\x7d\x7d"

/-- The bytes written for a frame: `data: <json>\n\n`. -/
def renderFrame (f : Frame) : String :=
  "data: " ++ frameJson f ++ "\n\n"

/-- The session flags of one streaming request: `isCompleted`,
`isCancelled`, whether the keep-alive interval timer is still set, and
whether the client-facing channel is still open (an `enqueue` on a closed
channel throws the TypeError that `safeEnqueue` catches). -/
structure SessionState where
  isCompleted : Bool
  isCancelled : Bool
  timerActive : Bool
  channelOpen : Bool
  deriving Repr, DecidableEq

/-- Per-session constants: the temporary id/timestamp generated once for
keep-alive frames, and the request's model echoed in them. -/
structure SessionCtx where
  tempId : String
  tempCreated : Nat
  requestModel : String
  deriving Repr, DecidableEq

/-- The session right after `start` ran: timer set, channel open. -/
def initSession : SessionState :=
  { isCompleted := false, isCancelled := false,
    timerActive := true, channelOpen := true }

/-- safeEnqueue: refuse when `isCompleted || isCancelled`; otherwise
enqueue, and when the channel is already closed (the TypeError branch)
silently set `isCancelled` instead of rethrowing. Returns the new state,
the frame actually written (if any) and the boolean the source returns. -/
def safeEnqueue (st : SessionState) (f : Frame) :
    SessionState × Option Frame × Bool :=
  if st.isCompleted || st.isCancelled then (st, none, false)
  else if st.channelOpen then (st, some f, true)
  else ({ st with isCancelled := true }, none, false)

/-- sendEmptyData (the timer callback): when the session is completed or
cancelled, clear the interval and do nothing; otherwise write one
keep-alive chunk through safeEnqueue. -/
def sendEmptyData (ctx : SessionCtx) (st : SessionState) :
    SessionState × List Event :=
  if st.isCompleted || st.isCancelled then
    ({ st with timerActive := false },
     if st.timerActive then [Event.timerCancel] else [])
  else
    let p := safeEnqueue st (Frame.keepAlive ctx.tempId ctx.tempCreated ctx.requestModel)
    (p.1, match p.2.1 with
          | some f => [Event.frame f]
          | none => [])

/-- The role chunk: emitted only when the first choice exists and its role
is JS-truthy (non-empty); it uses the real response id/created/model. -/
def roleFrames (response : ChatCompletionsResponse) : List Frame :=
  match response.choices.head? with
  | some firstChoice =>
    if firstChoice.message.role ≠ "" then
      [Frame.roleDelta response.id response.created response.model
        firstChoice.index firstChoice.message.role]
    else []
  | none => []

/-- The single content chunk: every choice's entire completion content as
one delta. -/
def contentFrame (response : ChatCompletionsResponse) : Frame :=
  Frame.contentDelta response.id response.created response.model
    (response.choices.map (fun c => (c.index, c.message.content)))

/-- The finish chunk: every choice's finish_reason, with an empty delta. -/
def finishFrame (response : ChatCompletionsResponse) : Frame :=
  Frame.finishDelta response.id response.created response.model
    (response.choices.map (fun c => (c.index, c.finish_reason)))

/-- The terminal frame sequence on orchestrator success. -/
def successFrames (response : ChatCompletionsResponse) : List Frame :=
  roleFrames response ++ [contentFrame response, finishFrame response, Frame.doneMarker]

/-- Write a sequence of frames through safeEnqueue, stopping at the first
write that returns false (`if (!safeEnqueue(...)) return;`). The boolean
reports whether every write succeeded. -/
def emitSeq (st : SessionState) : List Frame → SessionState × List Event × Bool
  | [] => (st, [], true)
  | f :: rest =>
    match safeEnqueue st f with
    | (st1, _, true) =>
      let q := emitSeq st1 rest
      (q.1, Event.frame f :: q.2.1, q.2.2)
    | (st1, _, false) => (st1, [], false)

/-- The continuation after `await autoRetryCompletion(request)` resolves:
clear the interval first, then on error emit one error frame and close
(unless already cancelled), and on success emit the role/content/finish
chunks, the `[DONE]` marker, set `isCompleted` and close. -/
def resolveStep (st : SessionState)
    (result : Except Err ChatCompletionsResponse) :
    SessionState × List Event :=
  let timerEvents := if st.timerActive then [Event.timerCancel] else []
  let st0 := { st with timerActive := false }
  match result with
  | Except.error e =>
    if st0.isCancelled then (st0, timerEvents)
    else
      match safeEnqueue st0 (Frame.errorFrame (errMessage e)) with
      | (st1, _, true) =>
        ({ st1 with channelOpen := false },
         timerEvents ++ [Event.frame (Frame.errorFrame (errMessage e)), Event.closeChannel])
      | (st1, _, false) => (st1, timerEvents)
  | Except.ok response =>
    if st0.isCancelled then (st0, timerEvents)
    else
      let q := emitSeq st0 (successFrames response)
      if q.2.2 then
        ({ q.1 with isCompleted := true, channelOpen := false },
         timerEvents ++ q.2.1 ++ [Event.closeChannel])
      else (q.1, timerEvents ++ q.2.1)

/-- The stream's cancel() callback (client disconnected): set
`isCancelled`, clear the interval; the client-side channel is closed. -/
def cancelStep (st : SessionState) : SessionState × List Event :=
  ({ st with isCancelled := true, timerActive := false, channelOpen := false },
   if st.timerActive then [Event.timerCancel] else [])

/-- The three concurrently scheduled activities that can act on a session. -/
inductive EmitterInput where
  | tick
  | resolve (result : Except Err ChatCompletionsResponse)
  | cancel

/-- One scheduled step of the fake-stream session. -/
def stepEmitter (ctx : SessionCtx) (st : SessionState) :
    EmitterInput → SessionState × List Event
  | EmitterInput.tick => sendEmptyData ctx st
  | EmitterInput.resolve r => resolveStep st r
  | EmitterInput.cancel => cancelStep st

/-! ## Concrete fixtures for witnesses and counterexamples -/

/-- A non-empty successful response used by witnesses. -/
def okResp : ChatCompletionsResponse :=
  { id := "chatcmpl-real", created := 42, model := "gpt",
    choices :=
      [ { index := 0,
          message := { role := "assistant", content := some "hi there" },
          finish_reason := some "stop" } ],
    usage := { prompt_tokens := 3, completion_tokens := 5, total_tokens := 8 } }

/-- A provider client whose completion always succeeds with `okResp` and
whose model list is fixed. -/
def okClient : ProviderClient :=
  { name := "acme",
    create := Except.ok (),
    models := Except.ok [{ id := "gpt", created := none, owned_by := none, extra := [] }],
    refreshModels := Except.ok [{ id := "b", created := none, owned_by := none, extra := [] }],
    completion := fun _ => Except.ok okResp }

/-- A provider client whose refreshModels fetch fails. -/
def failFetchClient : ProviderClient :=
  { name := "acme",
    create := Except.ok (),
    models := Except.error (Err.upstream "boom"),
    refreshModels := Except.error (Err.upstream "boom"),
    completion := fun _ => Except.error (Err.upstream "boom") }

/-- A manager state with one provider "acme" owning the alias "acme/gpt". -/
def stOne : ManagerState :=
  { clients := [("acme", okClient)],
    modelAliasesMapping := [("acme/gpt", "acme")] }

/-- A manager state whose alias table names provider "ghostprov" although
no such client exists (the destroyed-client race window). -/
def stOrphan : ManagerState :=
  { clients := [],
    modelAliasesMapping := [("ghostprov/foo", "ghostprov")] }

/-- The empty manager state. -/
def stEmpty : ManagerState :=
  { clients := [], modelAliasesMapping := [] }

/-- A manager state for the refresh counterexample: provider "acme" with
`refreshModels` fetching the single model "b", while the table currently
holds the stale alias "acme/a". -/
def stStale : ManagerState :=
  { clients := [("acme", okClient)],
    modelAliasesMapping := [("acme/a", "acme")] }

/-- A streaming request addressed to the "acme/gpt" alias. -/
def reqStream : ChatCompletionsRequest :=
  { model := "acme/gpt",
    messages := [{ role := "user", content := some "hi" }],
    stream := some true,
    rest := [("temperature", "1")] }

/-- A request whose alias "ghost/foo" is not in the alias table. -/
def reqGhost : ChatCompletionsRequest :=
  { model := "ghost/foo",
    messages := [{ role := "user", content := some "hi" }],
    stream := none, rest := [] }

/-- A request whose alias resolves to the destroyed provider of stOrphan. -/
def reqOrphan : ChatCompletionsRequest :=
  { model := "ghostprov/foo",
    messages := [{ role := "user", content := some "hi" }],
    stream := none, rest := [] }

/-- Session constants used in emitter witnesses. -/
def ctx0 : SessionCtx :=
  { tempId := "chatcmpl-1700000000000", tempCreated := 1700000000,
    requestModel := "acme/gpt" }

/-- A session whose cancelled flag is set. -/
def stCancelled : SessionState :=
  { isCompleted := false, isCancelled := true,
    timerActive := true, channelOpen := false }

/-- A live session whose client-facing channel has been closed (the next
enqueue hits the TypeError branch). -/
def stClosedChan : SessionState :=
  { isCompleted := false, isCancelled := false,
    timerActive := true, channelOpen := false }

/-- A registry where only the "openai" type has a factory (the state after
the module-load registration in providers/impl). -/
def regOpenAI : Registry :=
  { factories := [("openai", fun _ _ => okClient)] }

/-- An enabled provider configuration with the unrecognized type "ghost". -/
def ghostConfig : ProviderConfig :=
  { enabled := true, type := "ghost", endpoint := "http://x",
    api_key := "k", filter := none }

/-! ## Helper lemmas: retry loop -/

/-- The retry loop performs at most as many invocations as it has
remaining iterations. -/
theorem autoRetryAux_count_le (comp : Nat → Except Err ChatCompletionsResponse) :
    ∀ n i, (autoRetryAux comp i n).2 ≤ n := by
  intro n
  induction n with
  | zero => intro i; simp [autoRetryAux]
  | succ n ih =>
    intro i
    cases hc : comp i with
    | error e =>
      simpa [autoRetryAux, hc] using Nat.succ_le_succ (ih (i + 1))
    | ok r =>
      by_cases h0 : r.usage.completion_tokens = 0
      · simpa [autoRetryAux, hc, h0] using Nat.succ_le_succ (ih (i + 1))
      · simp [autoRetryAux, hc, h0]

/-- When every remaining attempt fails or is empty, the loop exhausts all
iterations and returns the max-retries error. -/
theorem autoRetryAux_all_fail (comp : Nat → Except Err ChatCompletionsResponse) :
    ∀ n i, (∀ j, i ≤ j → j < i + n → attemptFails (comp j) = true) →
      autoRetryAux comp i n = (Except.error Err.maxRetriesExceeded, n) := by
  intro n
  induction n with
  | zero => intro i _; rfl
  | succ n ih =>
    intro i h
    have hfi : attemptFails (comp i) = true := h i le_rfl (by omega)
    have hrest : ∀ j, i + 1 ≤ j → j < (i + 1) + n → attemptFails (comp j) = true :=
      fun j h1 h2 => h j (by omega) (by omega)
    cases hc : comp i with
    | error e =>
      simp [autoRetryAux, hc, ih (i + 1) hrest]
    | ok r =>
      have h0 : r.usage.completion_tokens = 0 := by
        simpa [attemptFails, hc] using hfi
      simp [autoRetryAux, hc, h0, ih (i + 1) hrest]

/-- When attempt `k` is the first good one within the remaining window, the
loop returns exactly that attempt's response after `k - i + 1` invocations. -/
theorem autoRetryAux_first_success (comp : Nat → Except Err ChatCompletionsResponse) :
    ∀ n i k, i ≤ k → k < i + n → attemptFails (comp k) = false →
      (∀ j, i ≤ j → j < k → attemptFails (comp j) = true) →
      autoRetryAux comp i n = (comp k, k - i + 1) := by
  intro n
  induction n with
  | zero => intro i k h1 h2; omega
  | succ n ih =>
    intro i k hik hkn hgood hbefore
    by_cases hik' : i = k
    · subst hik'
      cases hc : comp i with
      | error e => simp [attemptFails, hc] at hgood
      | ok r =>
        have h0 : ¬(r.usage.completion_tokens = 0) := by
          simpa [attemptFails, hc] using hgood
        simp [autoRetryAux, hc, h0]
    · have hlt : i < k := lt_of_le_of_ne hik hik'
      have hfi : attemptFails (comp i) = true := hbefore i le_rfl hlt
      have hrec : autoRetryAux comp (i + 1) n = (comp k, k - (i + 1) + 1) :=
        ih (i + 1) k (by omega) (by omega) hgood
          (fun j hj1 hj2 => hbefore j (by omega) hj2)
      have hcount : k - (i + 1) + 1 + 1 = k - i + 1 := by omega
      cases hc : comp i with
      | error e =>
        simp [autoRetryAux, hc, hrec, hcount]
      | ok r =>
        have h0 : r.usage.completion_tokens = 0 := by
          simpa [attemptFails, hc] using hfi
        simp [autoRetryAux, hc, h0, hrec, hcount]

/-! ## Helper lemmas: map embedding -/

/-- A successful lookup locates an entry of the list. -/
theorem mapLookup_mem {α : Type} (m : List (String × α)) (key : String) (v : α)
    (h : mapLookup m key = some v) : (key, v) ∈ m := by
  induction m with
  | nil => simp [mapLookup] at h
  | cons kv rest ih =>
    obtain ⟨k, w⟩ := kv
    by_cases hk : k = key
    · subst hk
      simp [mapLookup] at h
      simp [h]
    · simp only [mapLookup, if_neg hk] at h
      exact List.mem_cons_of_mem _ (ih h)

/-- Map.set updates exactly the given key. -/
theorem mapLookup_mapSet {α : Type} (m : List (String × α)) (key a : String) (v : α) :
    mapLookup (mapSet m key v) a = if a = key then some v else mapLookup m a := by
  induction m with
  | nil =>
    by_cases h : a = key
    · simp [mapSet, mapLookup, h]
    · have h' : ¬(key = a) := fun hh => h hh.symm
      simp [mapSet, mapLookup, h, h']
  | cons kv rest ih =>
    obtain ⟨k, w⟩ := kv
    by_cases hk : k = key
    · subst hk
      by_cases ha : a = k
      · simp [mapSet, mapLookup, ha]
      · have ha' : ¬(k = a) := fun hh => ha hh.symm
        simp [mapSet, mapLookup, ha, ha']
    · by_cases ha : a = k
      · have hak : ¬(a = key) := fun hh => hk ((ha.symm.trans hh))
        have hka : k = a := ha.symm
        simp [mapSet, mapLookup, hk, hka, hak]
      · have hka : ¬(k = a) := fun hh => ha hh.symm
        simp [mapSet, mapLookup, hk, hka, ih]

/-- Map.set on an absent key appends the new entry. -/
theorem mapSet_fresh {α : Type} (m : List (String × α)) (key : String) (v : α)
    (h : key ∉ m.map Prod.fst) : mapSet m key v = m ++ [(key, v)] := by
  induction m with
  | nil => rfl
  | cons kv rest ih =>
    obtain ⟨k, w⟩ := kv
    simp only [List.map_cons, List.mem_cons, not_or] at h
    have hk : ¬(k = key) := fun hh => h.1 hh.symm
    simp [mapSet, hk, ih h.2]

/-- Rebuilding a unique-keyed map from its entries by repeated Map.set
reproduces the entries after the accumulator. -/
theorem mapCopy_go (m : List (String × String)) :
    ∀ acc : List (String × String),
      (∀ kv ∈ m, kv.1 ∉ acc.map Prod.fst) →
      (m.map Prod.fst).Nodup →
      m.foldl (fun a kv => mapSet a kv.1 kv.2) acc = acc ++ m := by
  induction m with
  | nil => intro acc _ _; simp
  | cons kv rest ih =>
    intro acc hdisj hm
    obtain ⟨k, v⟩ := kv
    have hm2 : (k :: rest.map Prod.fst).Nodup := by
      simpa only [List.map_cons] using hm
    have hm' := List.nodup_cons.mp hm2
    simp only [List.foldl_cons]
    rw [mapSet_fresh acc k v (hdisj (k, v) (List.mem_cons_self _ _))]
    rw [ih (acc ++ [(k, v)]) ?_ hm'.2]
    · simp
    · intro e he
      simp only [List.map_append, List.mem_append, List.map_cons, List.map_nil,
        List.mem_cons, List.not_mem_nil, or_false, not_or]
      refine ⟨hdisj e (List.mem_cons_of_mem _ he), fun hek => ?_⟩
      exact hm'.1 (hek ▸ List.mem_map.mpr ⟨e, he, rfl⟩)

/-- The copy returned by getModelAliasesMapping equals the internal table
entry for entry (keys are unique by construction of the table). -/
theorem getModelAliasesMapping_eq (st : ManagerState)
    (h : (st.modelAliasesMapping.map Prod.fst).Nodup) :
    getModelAliasesMapping st = st.modelAliasesMapping := by
  simpa [getModelAliasesMapping, mapCopy] using
    mapCopy_go st.modelAliasesMapping [] (by simp) h

/-- Membership in a Map.delete result. -/
theorem mem_mapDelete {α : Type} (m : List (String × α)) (key : String)
    (kv : String × α) : kv ∈ mapDelete m key ↔ kv ∈ m ∧ kv.1 ≠ key := by
  simp [mapDelete, List.mem_filter]

/-- Membership after deleting a batch of keys. -/
theorem mem_foldl_mapDelete {α : Type} (ks : List String) :
    ∀ (m : List (String × α)) (kv : String × α),
      kv ∈ ks.foldl mapDelete m ↔ kv ∈ m ∧ kv.1 ∉ ks := by
  induction ks with
  | nil => intro m kv; simp
  | cons k ks ih =>
    intro m kv
    simp only [List.foldl_cons]
    rw [ih, mem_mapDelete]
    simp only [List.mem_cons, not_or]
    tauto

/-- Membership in the table after removeModels, phrased via the collected
alias batch. -/
theorem mem_removeModels (st : ManagerState) (providerName : String)
    (kv : String × String) :
    kv ∈ (removeModels st providerName).modelAliasesMapping ↔
      kv ∈ st.modelAliasesMapping
      ∧ kv.1 ∉ (st.modelAliasesMapping.filter
          (fun e => decide (e.2 = providerName))).map Prod.fst := by
  simp only [removeModels]
  exact mem_foldl_mapDelete _ _ _

/-- removeModels removes every alias mapped to the provider. -/
theorem removeModels_value_absent (st : ManagerState) (providerName : String)
    (a : String) :
    (a, providerName) ∉ (removeModels st providerName).modelAliasesMapping := by
  intro h
  rw [mem_removeModels] at h
  exact h.2 (List.mem_map.mpr
    ⟨(a, providerName), List.mem_filter.mpr ⟨h.1, by simp⟩, rfl⟩)

/-- In a unique-keyed map, a key determines its value. -/
theorem nodupKeys_val_eq {α : Type} (m : List (String × α))
    (h : (m.map Prod.fst).Nodup) (k : String) (v w : α)
    (h1 : (k, v) ∈ m) (h2 : (k, w) ∈ m) : v = w := by
  induction m with
  | nil => simp at h1
  | cons kv rest ih =>
    obtain ⟨k0, v0⟩ := kv
    have hh2 : (k0 :: rest.map Prod.fst).Nodup := by
      simpa only [List.map_cons] using h
    have hh := List.nodup_cons.mp hh2
    rcases List.mem_cons.mp h1 with h1h | h1t
    · rcases List.mem_cons.mp h2 with h2h | h2t
      · have e1 : v = v0 := congrArg Prod.snd h1h
        have e2 : w = v0 := congrArg Prod.snd h2h
        rw [e1, e2]
      · exfalso
        have ek : k = k0 := congrArg Prod.fst h1h
        exact hh.1 (ek ▸ List.mem_map.mpr ⟨(k, w), h2t, rfl⟩)
    · rcases List.mem_cons.mp h2 with h2h | h2t
      · exfalso
        have ek : k = k0 := congrArg Prod.fst h2h
        exact hh.1 (ek ▸ List.mem_map.mpr ⟨(k, v), h1t, rfl⟩)
      · exact ih hh.2 h1t h2t

/-- With unique keys, removeModels keeps exactly the entries of the other
providers. -/
theorem mem_removeModels_nodup (st : ManagerState) (providerName : String)
    (kv : String × String)
    (h : (st.modelAliasesMapping.map Prod.fst).Nodup) :
    kv ∈ (removeModels st providerName).modelAliasesMapping ↔
      kv ∈ st.modelAliasesMapping ∧ kv.2 ≠ providerName := by
  obtain ⟨a, v⟩ := kv
  rw [mem_removeModels]
  constructor
  · rintro ⟨h1, h2⟩
    refine ⟨h1, fun hv => h2 ?_⟩
    exact List.mem_map.mpr ⟨(a, v), List.mem_filter.mpr ⟨h1, by simpa using hv⟩, rfl⟩
  · rintro ⟨h1, h2⟩
    refine ⟨h1, fun hmem => ?_⟩
    obtain ⟨⟨e1, e2⟩, he, hek⟩ := List.mem_map.mp hmem
    have hef := List.mem_filter.mp he
    have hv2 : e2 = providerName := by simpa using hef.2
    have he1 : e1 = a := hek
    exact h2 (hv2 ▸ nodupKeys_val_eq _ h a v e2 h1 (he1 ▸ hef.1))

/-- Looking up after registering a provider's model batch: aliases of the
batch map to the provider, everything else is untouched. -/
theorem mapLookup_foldl_set (pn : String) (models : List ModelInfo) :
    ∀ (m : List (String × String)) (a : String),
      mapLookup (models.foldl
          (fun acc mo => mapSet acc (pn ++ "/" ++ mo.id) pn) m) a
        = if a ∈ models.map (fun mo => pn ++ "/" ++ mo.id) then some pn
          else mapLookup m a := by
  induction models with
  | nil => intro m a; simp
  | cons mo rest ih =>
    intro m a
    simp only [List.foldl_cons]
    rw [ih]
    by_cases h : a ∈ rest.map (fun mo => pn ++ "/" ++ mo.id)
    · simp [h]
    · by_cases h2 : a = pn ++ "/" ++ mo.id
      · simp [h, h2, mapLookup_mapSet]
      · simp [h, h2, mapLookup_mapSet]

/-- registerModels through the lookup lens. -/
theorem mapLookup_registerModels (st : ManagerState) (pn : String)
    (models : List ModelInfo) (a : String) :
    mapLookup (registerModels st pn models).modelAliasesMapping a
      = if a ∈ models.map (fun mo => pn ++ "/" ++ mo.id) then some pn
        else mapLookup st.modelAliasesMapping a := by
  simp only [registerModels]
  exact mapLookup_foldl_set pn models _ a

/-! ## Helper lemmas: fake-stream emitter -/

/-- On a live session with an open channel, emitSeq writes every frame in
order and leaves the flags unchanged. -/
theorem emitSeq_all (frames : List Frame) :
    ∀ st : SessionState, st.isCompleted = false → st.isCancelled = false →
      st.channelOpen = true →
      emitSeq st frames = (st, frames.map Event.frame, true) := by
  induction frames with
  | nil => intro st _ _ _; rfl
  | cons f rest ih =>
    intro st h1 h2 h3
    have hsf : safeEnqueue st f = (st, some f, true) := by
      simp [safeEnqueue, h1, h2, h3]
    simp [emitSeq, hsf, ih st h1 h2 h3]

/-- Once completed or cancelled, the first safeEnqueue refuses and emitSeq
emits nothing. -/
theorem emitSeq_blocked_cons (st : SessionState) (f : Frame)
    (rest : List Frame) (h : (st.isCompleted || st.isCancelled) = true) :
    emitSeq st (f :: rest) = (st, [], false) := by
  have hsf : safeEnqueue st f = (st, none, false) := by
    simp [safeEnqueue, h]
  simp [emitSeq, hsf]

/-- The success frame sequence is never empty. -/
theorem successFrames_ne_nil (response : ChatCompletionsResponse) :
    successFrames response ≠ [] := by
  simp [successFrames]

/-- Timer-cancellation events are not frames. -/
theorem filter_isFrameEvent_timer (b : Bool) :
    (if b then [Event.timerCancel] else []).filter isFrameEvent = [] := by
  cases b <;> rfl

/-- The resolve continuation emits no frame on a completed or cancelled
session. -/
theorem resolveStep_blocked (st : SessionState)
    (r : Except Err ChatCompletionsResponse)
    (h : (st.isCompleted || st.isCancelled) = true) :
    ((resolveStep st r).2.filter isFrameEvent) = [] := by
  obtain ⟨c, l, t, o⟩ := st
  dsimp only at h
  by_cases hl : l = true
  · subst hl
    cases r with
    | error e =>
      simp [resolveStep, filter_isFrameEvent_timer]
    | ok response =>
      simp [resolveStep, filter_isFrameEvent_timer]
  · have hl' : l = false := by
      cases l
      · rfl
      · exact absurd rfl hl
    subst hl'
    have hc : c = true := by simpa using h
    subst hc
    cases r with
    | error e =>
      have hsf : safeEnqueue (⟨true, false, false, o⟩ : SessionState)
          (Frame.errorFrame (errMessage e))
          = ((⟨true, false, false, o⟩ : SessionState), none, false) := by
        simp [safeEnqueue]
      simp [resolveStep, hsf, filter_isFrameEvent_timer]
    | ok response =>
      obtain ⟨f, rest, hfr⟩ :=
        List.exists_cons_of_ne_nil (successFrames_ne_nil response)
      have hblock := emitSeq_blocked_cons (⟨true, false, false, o⟩ : SessionState)
        f rest (by simp)
      simp [resolveStep, hfr, hblock, filter_isFrameEvent_timer,
        List.filter_append]

/-! ## Claim theorems -/

/-- Claim C1: for every request oracle and configured maxRetries N ≥ 1,
autoRetryCompletion invokes Router.completion at most N times; it returns
the response of the first attempt that is error-free with nonzero
completion_tokens (performing exactly that many invocations); an empty or
erroring attempt is retried; and only when every one of the N attempts has
failed or been empty does it return the max-retries error, after exactly N
invocations. -/
theorem autoRetry_spec (comp : Nat → Except Err ChatCompletionsResponse)
    (N : Nat) (_hN : 1 ≤ N) :
    autoRetryCallCount comp N ≤ N
    ∧ (∀ k r, 1 ≤ k → k ≤ N → comp k = Except.ok r →
        r.usage.completion_tokens ≠ 0 →
        (∀ j, 1 ≤ j → j < k → attemptFails (comp j) = true) →
        autoRetryCompletion comp N = Except.ok r
          ∧ autoRetryCallCount comp N = k)
    ∧ ((∀ j, 1 ≤ j → j ≤ N → attemptFails (comp j) = true) →
        autoRetryCompletion comp N = Except.error Err.maxRetriesExceeded
          ∧ autoRetryCallCount comp N = N) := by
  refine ⟨autoRetryAux_count_le comp N 1, ?_, ?_⟩
  · intro k r hk1 hkN hck hr0 hbefore
    have hgood : attemptFails (comp k) = false := by
      simp [attemptFails, hck, hr0]
    have h := autoRetryAux_first_success comp N 1 k hk1 (by omega) hgood hbefore
    have hcnt : k - 1 + 1 = k := by omega
    constructor
    · simp [autoRetryCompletion, h, hck]
    · simp [autoRetryCallCount, h, hcnt]
  · intro h
    have := autoRetryAux_all_fail comp N 1
      (fun j h1 h2 => h j h1 (by omega))
    constructor
    · simp [autoRetryCompletion, this]
    · simp [autoRetryCallCount, this]

/-- Witness for C1, instantiating the exhaustion branch at the spec's test
vector: maxRetries = 3 against an always-empty client terminates with the
max-retries error after exactly 3 invocations. -/
theorem autoRetry_spec_witness :
    autoRetryCompletion (fun _ => Except.ok emptyResp) 3
        = Except.error Err.maxRetriesExceeded
      ∧ autoRetryCallCount (fun _ => Except.ok emptyResp) 3 = 3 :=
  (autoRetry_spec (fun _ => Except.ok emptyResp) 3 (by decide)).2.2
    (fun _ _ _ => by simp [attemptFails, emptyResp])

/-- Claim C2: when the alias resolves to a registered provider whose
client exists, the router performs exactly one client invocation, passing
a request whose stream flag is false regardless of the caller's value,
whose model is the alias with the leading `"<providerName>/"` tag stripped
(the full unchanged alias when it does not start with that exact tag), and
whose remaining fields are unchanged; the router returns the client's
result verbatim. -/
theorem router_forwarding (st : ManagerState) (request : ChatCompletionsRequest)
    (providerName : String) (client : ProviderClient)
    (h1 : mapLookup (getModelAliasesMapping st) request.model = some providerName)
    (h2 : getClient st providerName = some client) :
    routerCompletionTr st request
      = (client.completion (forwardedRequest providerName request),
         [(providerName, forwardedRequest providerName request)])
    ∧ (forwardedRequest providerName request).stream = some false
    ∧ (forwardedRequest providerName request).messages = request.messages
    ∧ (forwardedRequest providerName request).rest = request.rest
    ∧ (request.model.startsWith (providerName ++ "/") = true →
        (forwardedRequest providerName request).model
          = request.model.drop (providerName ++ "/").length)
    ∧ (request.model.startsWith (providerName ++ "/") = false →
        (forwardedRequest providerName request).model = request.model) := by
  refine ⟨?_, rfl, rfl, rfl, ?_, ?_⟩
  · simp only [routerCompletionTr, h1, h2]
    cases hc : client.completion (forwardedRequest providerName request) <;>
      simp [hc]
  · intro h; simp [forwardedRequest, trimAlias, h]
  · intro h; simp [forwardedRequest, trimAlias, h]

/-- Witness for C2: with provider "acme" registered and alias "acme/gpt"
in the table, the router invokes the client exactly once with the
forwarded request, whose stream flag is false. -/
theorem router_forwarding_witness :
    routerCompletionTr stOne reqStream
      = (okClient.completion (forwardedRequest "acme" reqStream),
         [("acme", forwardedRequest "acme" reqStream)])
    ∧ (forwardedRequest "acme" reqStream).stream = some false :=
  ⟨(router_forwarding stOne reqStream "acme" okClient rfl rfl).1,
   (router_forwarding stOne reqStream "acme" okClient rfl rfl).2.1⟩

/-- Claim C5: an alias absent from the alias table yields the
AliasNotFound error with an empty invocation trace (no client contacted);
an alias present but whose provider's client is missing from the client
map yields the ClientNotFound error, again with no client invocation. -/
theorem router_notFound_spec (st : ManagerState)
    (request : ChatCompletionsRequest) (providerName : String) :
    (mapLookup (getModelAliasesMapping st) request.model = none →
      routerCompletionTr st request
        = (Except.error (Err.aliasNotFound request.model), []))
    ∧ (mapLookup (getModelAliasesMapping st) request.model = some providerName →
        getClient st providerName = none →
        routerCompletionTr st request
          = (Except.error (Err.clientNotFound providerName), [])) := by
  constructor
  · intro h; simp [routerCompletionTr, h]
  · intro h1 h2; simp [routerCompletionTr, h1, h2]

/-- Witness for C5: the spec's test vector `model = "ghost/foo"` with no
such alias returns AliasNotFound and contacts no client; an orphaned alias
whose client was destroyed returns ClientNotFound with no invocation. -/
theorem router_notFound_witness :
    routerCompletionTr stEmpty reqGhost
      = (Except.error (Err.aliasNotFound "ghost/foo"), [])
    ∧ routerCompletionTr stOrphan reqOrphan
      = (Except.error (Err.clientNotFound "ghostprov"), []) :=
  ⟨(router_notFound_spec stEmpty reqGhost "none").1 rfl,
   (router_notFound_spec stOrphan reqOrphan "ghostprov").2 rfl rfl⟩

/-- Claim C4: whitelist filtering keeps exactly the models whose id is in
the configured set, blacklist exactly those whose id is not, both
preserving upstream order (sublists of the upstream list); no configured
filter passes all models unchanged; and for any set the whitelist and
blacklist results are disjoint and together are a permutation of the
original model list. -/
theorem filter_spec (models : List ModelInfo) (S : List String) :
    (∀ m, m ∈ FilterUtil.whitelist models S ↔ m ∈ models ∧ m.id ∈ S)
    ∧ List.Sublist (FilterUtil.whitelist models S) models
    ∧ (∀ m, m ∈ FilterUtil.blacklist models S ↔ m ∈ models ∧ m.id ∉ S)
    ∧ List.Sublist (FilterUtil.blacklist models S) models
    ∧ applyFilter none models = models
    ∧ (∀ m, ¬(m ∈ FilterUtil.whitelist models S ∧ m ∈ FilterUtil.blacklist models S))
    ∧ (FilterUtil.whitelist models S ++ FilterUtil.blacklist models S).Perm models := by
  have hw : ∀ m, m ∈ FilterUtil.whitelist models S ↔ m ∈ models ∧ m.id ∈ S := by
    intro m
    simp [FilterUtil.whitelist, List.mem_filter]
  have hb : ∀ m, m ∈ FilterUtil.blacklist models S ↔ m ∈ models ∧ m.id ∉ S := by
    intro m
    simp [FilterUtil.blacklist, List.mem_filter]
  refine ⟨hw, List.filter_sublist models, hb, List.filter_sublist models, rfl, ?_, ?_⟩
  · intro m ⟨h1, h2⟩
    exact ((hb m).mp h2).2 ((hw m).mp h1).2
  · exact List.filter_append_perm (fun m => S.contains m.id) models

/-- Witness for C4 at a concrete upstream list and filter set. -/
theorem filter_spec_witness :
    applyFilter none
        [{ id := "a", created := none, owned_by := none, extra := [] },
         { id := "b", created := none, owned_by := none, extra := [] }]
      = [{ id := "a", created := none, owned_by := none, extra := [] },
         { id := "b", created := none, owned_by := none, extra := [] }]
    ∧ (FilterUtil.whitelist
          [{ id := "a", created := none, owned_by := none, extra := [] },
           { id := "b", created := none, owned_by := none, extra := [] }] ["a"]
        ++ FilterUtil.blacklist
          [{ id := "a", created := none, owned_by := none, extra := [] },
           { id := "b", created := none, owned_by := none, extra := [] }] ["a"]).Perm
        [{ id := "a", created := none, owned_by := none, extra := [] },
         { id := "b", created := none, owned_by := none, extra := [] }] :=
  ⟨(filter_spec
      [{ id := "a", created := none, owned_by := none, extra := [] },
       { id := "b", created := none, owned_by := none, extra := [] }] ["a"]).2.2.2.2.1,
   (filter_spec
      [{ id := "a", created := none, owned_by := none, extra := [] },
       { id := "b", created := none, owned_by := none, extra := [] }] ["a"]).2.2.2.2.2.2⟩

/-- Claim C7: refreshModels on an unregistered provider fails with
ProviderNotFound leaving the state unchanged; on a registered provider the
alias removal is applied before the upstream fetch, so a failed fetch
returns the fetch error with the provider still registered (client map
unchanged) but holding zero aliases, with no re-registration; a successful
fetch leaves the state holding exactly the filtered fetched models as
`"<name>/<model_id>"` aliases of the provider. -/
theorem refresh_spec (filterCfg : Option ProviderFilter) (st : ManagerState)
    (name : String) :
    (getClient st name = none →
      refreshModels filterCfg st name
        = (Except.error (Err.providerNotFound name), st))
    ∧ (∀ client e, getClient st name = some client →
        client.refreshModels = Except.error e →
        refreshModels filterCfg st name = (Except.error e, removeModels st name)
        ∧ (removeModels st name).clients = st.clients
        ∧ ∀ a, (a, name) ∉ (removeModels st name).modelAliasesMapping)
    ∧ (∀ client models, getClient st name = some client →
        client.refreshModels = Except.ok models →
        (refreshModels filterCfg st name).2
          = registerModels (removeModels st name) name (applyFilter filterCfg models)
        ∧ ∀ a,
            (mapLookup (refreshModels filterCfg st name).2.modelAliasesMapping a
                = some name
              ↔ a ∈ (applyFilter filterCfg models).map
                  (fun mo => name ++ "/" ++ mo.id))) := by
  refine ⟨?_, ?_, ?_⟩
  · intro h
    simp [refreshModels, refreshModelsPre, h]
  · intro client e hc he
    refine ⟨?_, rfl, fun a => removeModels_value_absent st name a⟩
    simp [refreshModels, refreshModelsPre, hc, refreshModelsPost, he]
  · intro client models hc hm
    have hstate : (refreshModels filterCfg st name).2
        = registerModels (removeModels st name) name (applyFilter filterCfg models) := by
      simp only [refreshModels, refreshModelsPre, hc, refreshModelsPost, hm]
    refine ⟨hstate, fun a => ?_⟩
    rw [hstate, mapLookup_registerModels]
    by_cases hmem : a ∈ (applyFilter filterCfg models).map (fun mo => name ++ "/" ++ mo.id)
    · simp [hmem]
    · simp only [hmem, if_false, iff_false]
      intro hlk
      exact removeModels_value_absent st name a (mapLookup_mem _ _ _ hlk)

/-- Witness for C7, success branch: refreshing "acme" (current alias
"acme/gpt", upstream now reporting the single model "b", no filter)
leaves the table holding exactly the alias "acme/b". -/
theorem refresh_spec_witness :
    (refreshModels none stOne "acme").2
      = registerModels (removeModels stOne "acme") "acme"
          (applyFilter none [{ id := "b", created := none, owned_by := none, extra := [] }])
    ∧ (mapLookup (refreshModels none stOne "acme").2.modelAliasesMapping "acme/b"
          = some "acme"
        ↔ "acme/b" ∈ (applyFilter none
            [{ id := "b", created := none, owned_by := none, extra := [] }]).map
              (fun mo => "acme" ++ "/" ++ mo.id)) :=
  have h := (refresh_spec none stOne "acme").2.2 okClient
    [{ id := "b", created := none, owned_by := none, extra := [] }] rfl rfl
  ⟨h.1, h.2 "acme/b"⟩

/-- Counterexample for C9: the claim asserts that no suspension point
separates the removal of a provider's aliases from their re-insertion. In
the source the upstream fetch `await client.refreshModels()` runs after
removeModels and before registerModels, so the alias table state visible
while that network call is pending is `refreshModelsPre`'s second
component. Concretely, refreshing "acme" whose stale alias set is
\x7b"acme/a"\x7d and whose new fetched set is \x7b"acme/b"\x7d exposes, at
the suspension point, a table containing neither "acme/a" (the old
complete set) nor "acme/b" (the new complete set): a reader observes an
intermediate (empty) alias set for the provider. -/
theorem refresh_not_atomic_counterexample :
    refreshModelsPre stStale "acme" = some (okClient, removeModels stStale "acme")
    ∧ mapLookup stStale.modelAliasesMapping "acme/a" = some "acme"
    ∧ mapLookup (removeModels stStale "acme").modelAliasesMapping "acme/a" = none
    ∧ mapLookup (removeModels stStale "acme").modelAliasesMapping "acme/b" = none
    ∧ mapLookup (refreshModels none stStale "acme").2.modelAliasesMapping "acme/b"
        = some "acme" :=
  ⟨rfl, rfl, rfl, rfl, rfl⟩

/-- Amended C9: each single table edit is atomic (removeModels completes
in one non-suspending section, as does the re-insertion), but the upstream
model-list fetch is awaited between the two, so a concurrent reader at
that suspension point observes the provider with zero aliases — its
entries completely removed and every other provider's entry untouched —
rather than the old or the new complete set. -/
theorem refresh_mid_state (filterCfg : Option ProviderFilter)
    (st : ManagerState) (name : String) (client : ProviderClient)
    (h : getClient st name = some client)
    (hnd : (st.modelAliasesMapping.map Prod.fst).Nodup) :
    refreshModelsPre st name = some (client, removeModels st name)
    ∧ refreshModels filterCfg st name
        = refreshModelsPost filterCfg (removeModels st name) name client.refreshModels
    ∧ (∀ a, (a, name) ∉ (removeModels st name).modelAliasesMapping)
    ∧ (∀ kv, kv ∈ (removeModels st name).modelAliasesMapping ↔
        kv ∈ st.modelAliasesMapping ∧ kv.2 ≠ name) := by
  refine ⟨?_, ?_, fun a => removeModels_value_absent st name a,
    fun kv => mem_removeModels_nodup st name kv hnd⟩
  · simp [refreshModelsPre, h]
  · simp [refreshModels, refreshModelsPre, h]

/-- Witness for the amended C9 at the counterexample's input. -/
theorem refresh_mid_state_witness :
    refreshModelsPre stStale "acme" = some (okClient, removeModels stStale "acme")
    ∧ refreshModels none stStale "acme"
        = refreshModelsPost none (removeModels stStale "acme") "acme"
            okClient.refreshModels :=
  have h := refresh_mid_state none stStale "acme" okClient rfl (by simp [stStale])
  ⟨h.1, h.2.1⟩

/-- Claim C10: getModelAliasesMapping returns a copy of the alias table —
a value equal to the internal table entry for entry (the table's keys
being unique), so the mapping a caller received is a fixed snapshot that
later registerModels/removeModels/destroyProvider state changes cannot
alter; and a Router.completion invocation behaves identically on a state
holding that snapshot, i.e. it resolves against the single snapshot taken
at entry. -/
theorem snapshot_spec (st : ManagerState) (request : ChatCompletionsRequest)
    (a : String) (hnd : (st.modelAliasesMapping.map Prod.fst).Nodup) :
    getModelAliasesMapping st = st.modelAliasesMapping
    ∧ mapLookup (getModelAliasesMapping st) a = mapLookup st.modelAliasesMapping a
    ∧ routerCompletionTr st request
        = routerCompletionTr
            { clients := st.clients,
              modelAliasesMapping := getModelAliasesMapping st } request := by
  have hcopy := getModelAliasesMapping_eq st hnd
  refine ⟨hcopy, by rw [hcopy], ?_⟩
  rw [hcopy]

/-- Witness for C10 at a one-provider state. -/
theorem snapshot_spec_witness :
    getModelAliasesMapping stOne = stOne.modelAliasesMapping
    ∧ mapLookup (getModelAliasesMapping stOne) "acme/gpt"
        = mapLookup stOne.modelAliasesMapping "acme/gpt" :=
  have h := snapshot_spec stOne reqStream "acme/gpt" (by simp [stOne])
  ⟨h.1, h.2.1⟩

/-- Claim C3: on orchestrator success in a live session, the emitter
cancels the keep-alive timer before emitting any terminal frame and then
emits, in this exact order: a role-delta chunk (only when the first choice
carries a role) built from the real response id/created/model, one content
chunk carrying every choice's entire completion content as a single delta,
the finish chunk carrying each choice's finish_reason, the `[DONE]`
terminal marker, and then closes the channel; every frame is rendered as
`data: <json>\n\n` and the terminal marker as the literal
`data: [DONE]\n\n`. -/
theorem fakeStream_success_order (ctx : SessionCtx) (st : SessionState)
    (response : ChatCompletionsResponse)
    (h1 : st.isCompleted = false) (h2 : st.isCancelled = false)
    (h3 : st.channelOpen = true) (h4 : st.timerActive = true) :
    stepEmitter ctx st (EmitterInput.resolve (Except.ok response))
      = ({ isCompleted := true, isCancelled := false,
           timerActive := false, channelOpen := false },
         Event.timerCancel ::
           ((roleFrames response).map Event.frame
             ++ [Event.frame (contentFrame response),
                 Event.frame (finishFrame response),
                 Event.frame Frame.doneMarker, Event.closeChannel]))
    ∧ (∀ ch, response.choices.head? = some ch → ch.message.role ≠ "" →
        roleFrames response
          = [Frame.roleDelta response.id response.created response.model
              ch.index ch.message.role])
    ∧ (response.choices.head? = none → roleFrames response = [])
    ∧ contentFrame response
        = Frame.contentDelta response.id response.created response.model
            (response.choices.map (fun c => (c.index, c.message.content)))
    ∧ finishFrame response
        = Frame.finishDelta response.id response.created response.model
            (response.choices.map (fun c => (c.index, c.finish_reason)))
    ∧ (∀ f, renderFrame f = "data: " ++ frameJson f ++ "\n\n")
    ∧ renderFrame Frame.doneMarker = "data: [DONE]\n\n" := by
  obtain ⟨c, l, t, o⟩ := st
  dsimp only at h1 h2 h3 h4
  subst h1; subst h2; subst h3; subst h4
  refine ⟨?_, ?_, ?_, rfl, rfl, fun f => rfl, by decide⟩
  · have hemit := emitSeq_all (successFrames response)
      (⟨false, false, false, true⟩ : SessionState) rfl rfl rfl
    simp only [stepEmitter, resolveStep, hemit]
    simp [successFrames]
  · intro ch hch hrole
    simp [roleFrames, hch, hrole]
  · intro hch
    simp [roleFrames, hch]

/-- Witness for C3 at a fresh session receiving the concrete response
okResp (first choice role "assistant"). -/
theorem fakeStream_success_order_witness :
    stepEmitter ctx0 initSession (EmitterInput.resolve (Except.ok okResp))
      = ({ isCompleted := true, isCancelled := false,
           timerActive := false, channelOpen := false },
         Event.timerCancel ::
           ((roleFrames okResp).map Event.frame
             ++ [Event.frame (contentFrame okResp),
                 Event.frame (finishFrame okResp),
                 Event.frame Frame.doneMarker, Event.closeChannel]))
    ∧ roleFrames okResp
        = [Frame.roleDelta okResp.id okResp.created okResp.model 0 "assistant"] :=
  have h := fakeStream_success_order ctx0 initSession okResp rfl rfl rfl rfl
  ⟨h.1, h.2.1 (okResp.choices.get ⟨0, by decide⟩) rfl (by decide)⟩

/-- Claim C6: every frame write goes through safeEnqueue, which first
checks the completed and cancelled flags and is a refusing no-op once
either is set — hence no step of the session (timer tick, orchestrator
resolution or cancel callback) emits any frame once cancelled (or
completed) is set; and a write hitting an already-closed channel does not
propagate the exception to the caller: it returns false and silently
marks the session cancelled. -/
theorem write_safety (ctx : SessionCtx) (st : SessionState)
    (inp : EmitterInput) (f : Frame) :
    ((st.isCancelled = true ∨ st.isCompleted = true) →
      ((stepEmitter ctx st inp).2.filter isFrameEvent) = [])
    ∧ ((st.isCompleted || st.isCancelled) = true →
        safeEnqueue st f = (st, none, false))
    ∧ (st.isCompleted = false → st.isCancelled = false →
        st.channelOpen = false →
        safeEnqueue st f = ({ st with isCancelled := true }, none, false)) := by
  refine ⟨?_, ?_, ?_⟩
  · intro h
    have hor : (st.isCompleted || st.isCancelled) = true := by
      rcases h with h | h <;> simp [h]
    cases inp with
    | tick =>
      simp [stepEmitter, sendEmptyData, hor, filter_isFrameEvent_timer]
    | resolve r =>
      exact resolveStep_blocked st r hor
    | cancel =>
      simp [stepEmitter, cancelStep, filter_isFrameEvent_timer]
  · intro h
    simp [safeEnqueue, h]
  · intro h1 h2 h3
    simp [safeEnqueue, h1, h2, h3]

/-- Witness for C6: a cancelled session's timer tick emits nothing, and a
write on a closed channel of a live session refuses and marks the session
cancelled instead of raising. -/
theorem write_safety_witness :
    ((stepEmitter ctx0 stCancelled EmitterInput.tick).2.filter isFrameEvent = [])
    ∧ safeEnqueue stClosedChan (Frame.keepAlive "chatcmpl-1" 1 "m")
        = ({ stClosedChan with isCancelled := true }, none, false) :=
  ⟨(write_safety ctx0 stCancelled EmitterInput.tick
      (Frame.keepAlive "chatcmpl-1" 1 "m")).1 (Or.inl rfl),
   (write_safety ctx0 stClosedChan EmitterInput.tick
      (Frame.keepAlive "chatcmpl-1" 1 "m")).2.2 rfl rfl rfl⟩

/-- Counterexample for C8: the claim says initializeProviders returns an
UnknownProviderType-style error result when the configured type has no
registered factory. In the source, ProviderRegistryImpl.createClient
THROWS in that case (its doc comment says `@throws`) and
initializeProviders calls it with no try/catch, so at the concrete input
below the call raises — here the propagating exception is the outer
`Except.error (Thrown.thrown ...)`, which is not a returned `Result`. -/
theorem initialize_throws_counterexample :
    initializeProviders regOpenAI (fun _ => none) [("p", ghostConfig)] stEmpty
      = Except.error (Thrown.thrown
          "Provider type \"ghost\" is not registered. Available types: openai") := rfl

/-- Amended C8: Directory, Router and Orchestrator operations encode
their failures as returned value-or-error results, with one exception:
createClient throws on an unregistered (or unrecognized) provider type,
and initializeProviders invokes it without a try/catch, so that exception
propagates out of initializeProviders instead of being returned as an
error result. -/
theorem initialize_throws (reg : Registry)
    (filterCfg : String → Option ProviderFilter) (name : String)
    (config : ProviderConfig) (rest : List (String × ProviderConfig))
    (st : ManagerState) (t : Thrown)
    (hen : config.enabled = true)
    (hcc : createClient reg name config = Except.error t) :
    initializeProviders reg filterCfg ((name, config) :: rest) st
      = Except.error t := by
  simp [initializeProviders, hen, hcc]

/-- Witness for the amended C8: the unknown-typed provider heads a longer
configuration list and the exception still escapes the whole run. -/
theorem initialize_throws_witness :
    initializeProviders regOpenAI (fun _ => none)
        [("p", ghostConfig), ("q", ghostConfig)] stEmpty
      = Except.error (Thrown.thrown
          "Provider type \"ghost\" is not registered. Available types: openai") :=
  initialize_throws regOpenAI (fun _ => none) "p" ghostConfig
    [("q", ghostConfig)] stEmpty
    (Thrown.thrown
      "Provider type \"ghost\" is not registered. Available types: openai")
    rfl rfl

end NoStreaming
